import Mathlib

/-!
Shallow embedding of the state/persistence module of src/script.js
(Bashins Budget). Amounts are modelled as rationals; the JavaScript
coercion helper toNumber and its Math.round rounding are modelled
exactly (Math.round x = floor (x + 1/2) for finite inputs). JSON values
are modelled by the inductive JsVal; localStorage holds at most one
value under the single fixed key, modelled by the Stored type, where
the stored string is identified with the JSON value it prints as
(JSON.stringify is deterministic and injective on these values, so
byte-for-byte string equality corresponds to JsVal equality).
-/

namespace BashiBudget

/-- JavaScript Math.round: round half toward positive infinity.
For every finite x, Math.round x = floor (x + 1/2). -/
def jsRound (q : ℚ) : ℤ := ⌊q + 1/2⌋

/-- src/script.js toNumber: Number(value) followed by
Math.round(num * 100) / 100; NaN (non-numeric input, modelled as none)
becomes 0. -/
def toNumber : Option ℚ → ℚ
  | none => 0
  | some q => (jsRound (q * 100) : ℚ) / 100

/-- An expense record: id, category, amount, desc, date
(field insertion order of the object literal in onAddExpense). -/
structure Expense where
  id : String
  category : String
  amount : ℚ
  desc : String
  date : String
deriving DecidableEq

/-- An income record: id, source, amount, date
(field insertion order of the object literal in onAddIncome). -/
structure Income where
  id : String
  source : String
  amount : ℚ
  date : String
deriving DecidableEq

/-- The Ledger: the five top-level fields of the global state object.
budgets is a JavaScript object, modelled as an insertion-ordered
association list. -/
structure Ledger where
  expenseCategories : List String
  incomeCategories : List String
  budgets : List (String × ℚ)
  expenses : List Expense
  incomes : List Income
deriving DecidableEq

/-- The DEFAULT.expenseCategories constant. -/
def defaultExpenseCategories : List String :=
  ["Hyra", "Mat", "Egenvård", "Transport", "Nöje", "Abonnemang",
   "Kläder", "Presenter", "Resor", "Hälsa & träning", "Sparande", "Övrigt"]

/-- The DEFAULT.incomeCategories constant. -/
def defaultIncomeCategories : List String := ["CSN", "Jobb", "Extra"]

/-- The DEFAULT state object: the two fixed category lists, empty
budgets, empty expenses, empty incomes. -/
def defaultLedger : Ledger :=
  { expenseCategories := defaultExpenseCategories
  , incomeCategories := defaultIncomeCategories
  , budgets := []
  , expenses := []
  , incomes := [] }

/-- JSON values, as produced by JSON.parse. Objects are
insertion-ordered association lists. -/
inductive JsVal where
  | jnull
  | jbool (b : Bool)
  | jnum (q : ℚ)
  | jstr (s : String)
  | jarr (elems : List JsVal)
  | jobj (fields : List (String × JsVal))

mutual

def decEqJsVal (v w : JsVal) : Decidable (v = w) := by
  cases v <;> cases w <;>
    try (apply isFalse; intro h; exact JsVal.noConfusion h)
  case jnull.jnull => exact isTrue rfl
  case jbool.jbool a b =>
    exact match decEq a b with
      | isTrue h => isTrue (congrArg JsVal.jbool h)
      | isFalse h => isFalse fun hh => h (by injection hh)
  case jnum.jnum a b =>
    exact match decEq a b with
      | isTrue h => isTrue (congrArg JsVal.jnum h)
      | isFalse h => isFalse fun hh => h (by injection hh)
  case jstr.jstr a b =>
    exact match decEq a b with
      | isTrue h => isTrue (congrArg JsVal.jstr h)
      | isFalse h => isFalse fun hh => h (by injection hh)
  case jarr.jarr xs ys =>
    exact match decEqJsValList xs ys with
      | isTrue h => isTrue (congrArg JsVal.jarr h)
      | isFalse h => isFalse fun hh => h (by injection hh)
  case jobj.jobj fs gs =>
    exact match decEqJsFields fs gs with
      | isTrue h => isTrue (congrArg JsVal.jobj h)
      | isFalse h => isFalse fun hh => h (by injection hh)

def decEqJsValList (xs ys : List JsVal) : Decidable (xs = ys) :=
  match xs, ys with
  | [], [] => isTrue rfl
  | [], _ :: _ => isFalse fun h => List.noConfusion h
  | _ :: _, [] => isFalse fun h => List.noConfusion h
  | x :: xs, y :: ys =>
    match decEqJsVal x y, decEqJsValList xs ys with
    | isTrue h1, isTrue h2 => isTrue (by rw [h1, h2])
    | isFalse h1, _ => isFalse fun h => by cases h; exact h1 rfl
    | _, isFalse h2 => isFalse fun h => by cases h; exact h2 rfl

def decEqJsFields (fs gs : List (String × JsVal)) : Decidable (fs = gs) :=
  match fs, gs with
  | [], [] => isTrue rfl
  | [], _ :: _ => isFalse fun h => List.noConfusion h
  | _ :: _, [] => isFalse fun h => List.noConfusion h
  | (k1, v1) :: fs, (k2, v2) :: gs =>
    match decEq k1 k2, decEqJsVal v1 v2, decEqJsFields fs gs with
    | isTrue h1, isTrue h2, isTrue h3 => isTrue (by rw [h1, h2, h3])
    | isFalse h1, _, _ => isFalse fun h => by cases h; exact h1 rfl
    | _, isFalse h2, _ => isFalse fun h => by cases h; exact h2 rfl
    | _, _, isFalse h3 => isFalse fun h => by cases h; exact h3 rfl

end

instance : DecidableEq JsVal := decEqJsVal

/-- JavaScript truthiness of a JSON value: null, false, 0 and the
empty string are falsy; every array and every object is truthy. -/
def truthy : JsVal → Bool
  | .jnull => false
  | .jbool b => b
  | .jnum q => decide (q ≠ 0)
  | .jstr s => decide (s ≠ "")
  | .jarr _ => true
  | .jobj _ => true

/-- JavaScript: typeof v is the string "object" exactly for null,
arrays and plain objects (among JSON values). -/
def isObjectType : JsVal → Bool
  | .jnull => true
  | .jarr _ => true
  | .jobj _ => true
  | _ => false

/-- Property access parsed.k on a JSON value: on an object, the value
bound to key k (later bindings shadow earlier ones, as JSON.parse
keeps the last duplicate key); on anything else, undefined (none). -/
def getField (v : JsVal) (k : String) : Option JsVal :=
  match v with
  | .jobj fs => fs.foldl (fun acc p => if p.1 = k then some p.2 else acc) none
  | _ => none

/-- The JavaScript expression v2 = v1.k or d: the field value when
present and truthy, otherwise the default d (undefined is falsy). -/
def jsOr (v : Option JsVal) (d : JsVal) : JsVal :=
  match v with
  | some x => if truthy x then x else d
  | none => d

/-- JSON.stringify of an Expense record (keys in insertion order of
the object literal built by onAddExpense). -/
def encodeExpense (e : Expense) : JsVal :=
  .jobj [("id", .jstr e.id), ("category", .jstr e.category),
         ("amount", .jnum e.amount), ("desc", .jstr e.desc),
         ("date", .jstr e.date)]

/-- JSON.stringify of an Income record (keys in insertion order of
the object literal built by onAddIncome). -/
def encodeIncome (i : Income) : JsVal :=
  .jobj [("id", .jstr i.id), ("source", .jstr i.source),
         ("amount", .jnum i.amount), ("date", .jstr i.date)]

/-- JSON.stringify of the whole state object (five top-level keys in
declaration order). -/
def encodeLedger (st : Ledger) : JsVal :=
  .jobj [("expenseCategories", .jarr (st.expenseCategories.map JsVal.jstr)),
         ("incomeCategories", .jarr (st.incomeCategories.map JsVal.jstr)),
         ("budgets", .jobj (st.budgets.map fun p => (p.1, JsVal.jnum p.2))),
         ("expenses", .jarr (st.expenses.map encodeExpense)),
         ("incomes", .jarr (st.incomes.map encodeIncome))]

/-- Contents of the single localStorage slot under the fixed key:
absent (getItem returns null), a string that JSON.parse rejects, or a
string that parses to the JSON value v. -/
inductive Stored where
  | absent
  | corrupt (s : String)
  | val (v : JsVal)
deriving DecidableEq

/-- The test stateString === the two-character empty-object string in
saveState: the serialized state is an object with no keys. -/
def isEmptyObj : JsVal → Bool
  | .jobj [] => true
  | _ => false

/-- saveState from src/script.js. The in-memory state is the typed
Ledger st (so the initial state-is-an-object check always passes and
JSON.stringify always succeeds). The environment oracles model the
try block: throws is true when localStorage.setItem throws (quota
exceeded; the catch returns false and the slot keeps its old
contents), and writeResult is the slot contents after a non-throwing
setItem call (what the verification getItem then reads back).
Returns the boolean result and the final slot contents. -/
def saveState (st : Ledger) (storage : Stored) (throws : Bool)
    (writeResult : Stored) : Bool × Stored :=
  let s := encodeLedger st
  if isEmptyObj s then (false, storage)
  else if throws then (false, storage)
  else if writeResult = Stored.val s then (true, writeResult)
  else (false, writeResult)

/-- The global state object right after loadState assigns its merged
object literal: each of the five fields is a raw JSON value (the
stored blob is untyped, so a field can hold a value of any shape). -/
structure RawState where
  expenseCategories : JsVal
  incomeCategories : JsVal
  budgets : JsVal
  expenses : JsVal
  incomes : JsVal
deriving DecidableEq

/-- The image of a typed Ledger as a raw state. -/
def rawOfLedger (st : Ledger) : RawState :=
  { expenseCategories := .jarr (st.expenseCategories.map JsVal.jstr)
  , incomeCategories := .jarr (st.incomeCategories.map JsVal.jstr)
  , budgets := .jobj (st.budgets.map fun p => (p.1, JsVal.jnum p.2))
  , expenses := .jarr (st.expenses.map encodeExpense)
  , incomes := .jarr (st.incomes.map encodeIncome) }

/-- The default raw state: state = a copy of DEFAULT. -/
def defaultRaw : RawState := rawOfLedger defaultLedger

/-- The merged object literal assigned to state by loadState: each
field is parsed.f or its default (the two DEFAULT category lists, an
empty object for budgets, empty arrays for expenses and incomes). -/
def mergeWithDefault (parsed : JsVal) : RawState :=
  { expenseCategories :=
      jsOr (getField parsed "expenseCategories")
        (.jarr (defaultExpenseCategories.map JsVal.jstr))
  , incomeCategories :=
      jsOr (getField parsed "incomeCategories")
        (.jarr (defaultIncomeCategories.map JsVal.jstr))
  , budgets := jsOr (getField parsed "budgets") (.jobj [])
  , expenses := jsOr (getField parsed "expenses") (.jarr [])
  , incomes := jsOr (getField parsed "incomes") (.jarr []) }

/-- loadState from src/script.js: read the fixed key; when the slot is
empty or the string does not parse (JSON.parse throws, caught), fall
back to the default and return false; when the parsed value is truthy
and of object type, assign the field-by-field merge and return true;
otherwise fall back to the default and return false. -/
def loadState (storage : Stored) : Bool × RawState :=
  match storage with
  | .absent => (false, defaultRaw)
  | .corrupt _ => (false, defaultRaw)
  | .val parsed =>
    if truthy parsed && isObjectType parsed then
      (true, mergeWithDefault parsed)
    else
      (false, defaultRaw)

/-- Decode a list elementwise, failing when any element fails. -/
def decodeList (f : JsVal → Option α) : List JsVal → Option (List α)
  | [] => some []
  | v :: vs =>
    match f v, decodeList f vs with
    | some a, some tl => some (a :: tl)
    | _, _ => none

/-- Decode a JSON value that must be a string. -/
def decodeStr : JsVal → Option String
  | .jstr s => some s
  | _ => none

/-- Decode a JSON array of strings. -/
def decodeStringList : JsVal → Option (List String)
  | .jarr xs => decodeList decodeStr xs
  | _ => none

/-- Decode an association list whose values are all numbers. -/
def decodeBudgetList : List (String × JsVal) → Option (List (String × ℚ))
  | [] => some []
  | p :: ps =>
    match p.2, decodeBudgetList ps with
    | .jnum q, some tl => some ((p.1, q) :: tl)
    | _, _ => none

/-- Decode a JSON object whose values are all numbers. -/
def decodeBudgets : JsVal → Option (List (String × ℚ))
  | .jobj fs => decodeBudgetList fs
  | _ => none

/-- Decode a JSON object into an Expense record. -/
def decodeExpense (v : JsVal) : Option Expense :=
  match getField v "id", getField v "category", getField v "amount",
        getField v "desc", getField v "date" with
  | some (.jstr i), some (.jstr c), some (.jnum a), some (.jstr d),
    some (.jstr t) => some ⟨i, c, a, d, t⟩
  | _, _, _, _, _ => none

/-- Decode a JSON object into an Income record. -/
def decodeIncome (v : JsVal) : Option Income :=
  match getField v "id", getField v "source", getField v "amount",
        getField v "date" with
  | some (.jstr i), some (.jstr s), some (.jnum a), some (.jstr t) =>
      some ⟨i, s, a, t⟩
  | _, _, _, _ => none

/-- Decode a raw state back into a typed Ledger: the structural-
equality bridge between the untyped in-memory object and the Ledger
data model. -/
def decodeRaw (r : RawState) : Option Ledger :=
  match decodeStringList r.expenseCategories,
        decodeStringList r.incomeCategories,
        decodeBudgets r.budgets,
        (match r.expenses with
         | .jarr xs => decodeList decodeExpense xs
         | _ => none),
        (match r.incomes with
         | .jarr xs => decodeList decodeIncome xs
         | _ => none) with
  | some a, some b, some c, some d, some e => some ⟨a, b, c, d, e⟩
  | _, _, _, _, _ => none

/-- JavaScript falsiness of the category / source / desc input read
from the form: undefined (the element is missing, modelled none) and
the empty string are the falsy cases. -/
def strFalsy : Option String → Bool
  | none => true
  | some s => decide (s = "")

/-- The ledger mutation performed by onAddExpense: abort when the
category is falsy or the coerced amount is not greater than 0,
otherwise push a new expense built from a fresh id (generateId) and
the current timestamp (new Date toISOString), with the desc falling
back to the placeholder text. Non-ledger effects (form clearing,
rendering, auto-save) are modelled separately. -/
def onAddExpense (category desc : Option String) (amount : Option ℚ)
    (newId now : String) (st : Ledger) : Ledger :=
  if strFalsy category then st
  else
    let numAmount := toNumber amount
    if numAmount ≤ 0 then st
    else
      { st with expenses := st.expenses ++
          [{ id := newId
           , category := category.getD ""
           , amount := numAmount
           , desc := if strFalsy desc then "Ingen beskrivning" else desc.getD ""
           , date := now }] }

/-- The ledger mutation performed by onAddIncome: same contract with
source in place of category and no description. -/
def onAddIncome (source : Option String) (amount : Option ℚ)
    (newId now : String) (st : Ledger) : Ledger :=
  if strFalsy source then st
  else
    let numAmount := toNumber amount
    if numAmount ≤ 0 then st
    else
      { st with incomes := st.incomes ++
          [{ id := newId
           , source := source.getD ""
           , amount := numAmount
           , date := now }] }

/-- The ledger mutation performed by deleteExpense (after the user
confirmation that belongs to the view layer): keep exactly the
expenses whose id differs from the argument. Total - no error is
possible when the id is absent. -/
def deleteExpense (expenseId : String) (st : Ledger) : Ledger :=
  { st with expenses := st.expenses.filter fun e => e.id ≠ expenseId }

/-- The ledger mutation performed by deleteIncome, symmetric to
deleteExpense. -/
def deleteIncome (incomeId : String) (st : Ledger) : Ledger :=
  { st with incomes := st.incomes.filter fun i => i.id ≠ incomeId }

/-- The per-category spend computed in renderBudgetTable:
state.expenses filtered to the category, then reduced with
sum + toNumber(exp.amount) starting from 0. -/
def spentByCategory (category : String) (st : Ledger) : ℚ :=
  (st.expenses.filter fun e => e.category = category).foldl
    (fun sum e => sum + toNumber (some e.amount)) 0

/-- The caller-side persistence status: the in-memory ledger, the
localStorage slot, the hasUnsavedChanges flag and whether the
reminder timer is armed (reminderTimer is not null). -/
structure App where
  ledger : Ledger
  storage : Stored
  unsaved : Bool
  timerOn : Bool
deriving DecidableEq

/-- markUnsavedChanges: set the flag and arm the reminder timer
(startReminderTimer replaces any existing timer). -/
def markUnsavedChanges (a : App) : App :=
  { a with unsaved := true, timerOn := true }

/-- markSavedChanges: clear the flag and disarm the reminder timer. -/
def markSavedChanges (a : App) : App :=
  { a with unsaved := false, timerOn := false }

/-- saveState at the app level: the same function as saveState on the
ledger and slot, plus the markSavedChanges call it performs on the
success path. -/
def saveStateApp (throws : Bool) (writeResult : Stored) (a : App) :
    Bool × App :=
  let r := saveState a.ledger a.storage throws writeResult
  if r.1 then (true, markSavedChanges { a with storage := r.2 })
  else (false, { a with storage := r.2 })

/-- The full onAddExpense handler as it affects the app state:
validation, push, auto-save, and - only when the save reported
success - the markUnsavedChanges call. -/
def onAddExpenseApp (category desc : Option String) (amount : Option ℚ)
    (newId now : String) (throws : Bool) (writeResult : Stored)
    (a : App) : App :=
  if strFalsy category then a
  else if toNumber amount ≤ 0 then a
  else
    let a1 := { a with
      ledger := onAddExpense category desc amount newId now a.ledger }
    let r := saveStateApp throws writeResult a1
    if r.1 then markUnsavedChanges r.2 else r.2

/-- A stored top-level field is either absent or holds an array: the
shape a well-formed persisted blob gives the four array-valued
fields. -/
def isArrOrAbsent : Option JsVal → Bool
  | none => true
  | some (.jarr _) => true
  | _ => false

/-- A stored top-level field is either absent or holds an object: the
shape a well-formed persisted blob gives the budgets field. -/
def isObjOrAbsent : Option JsVal → Bool
  | none => true
  | some (.jobj _) => true
  | _ => false

/-- A partial stored blob carrying only the expenses field. -/
def c3Blob : List (String × JsVal) := [("expenses", JsVal.jarr [])]

/-- A stored blob whose expenses field is an explicitly empty array. -/
def c10Blob : List (String × JsVal) := [("expenses", JsVal.jarr [])]

/-- A ledger with one budget entry, one expense and one income, used
as a round-trip test vector. -/
def c1Ledger : Ledger :=
  { expenseCategories := defaultExpenseCategories
  , incomeCategories := defaultIncomeCategories
  , budgets := [("Mat", 1000)]
  , expenses := [{ id := "e1", category := "Mat", amount := 12056/100,
                   desc := "lunch", date := "t1" }]
  , incomes := [{ id := "i1", source := "CSN", amount := 3000,
                  date := "t2" }] }

/-- The app state right after startup: default ledger, empty
slot, no unsaved changes, reminder timer disarmed. -/
def c9Start : App :=
  { ledger := defaultLedger, storage := .absent,
    unsaved := false, timerOn := false }

/-- A concrete one-expense, one-income ledger used as a test vector. -/
def c8Ledger : Ledger :=
  { defaultLedger with
    expenses := [{ id := "e1", category := "Mat", amount := 120,
                   desc := "x", date := "t" }]
    incomes := [{ id := "i1", source := "CSN", amount := 3000, date := "t" }] }

/-- The two-expense ledger from the spentByCategory example in the spec:
120.56 kr on Mat and 500 kr on Hyra. -/
def c7Ledger : Ledger :=
  { defaultLedger with
    expenses := [{ id := "e1", category := "Mat", amount := 12056/100,
                   desc := "x", date := "t" },
                 { id := "e2", category := "Hyra", amount := 500,
                   desc := "y", date := "t" }] }

lemma isEmptyObj_encodeLedger (st : Ledger) :
    isEmptyObj (encodeLedger st) = false := rfl

lemma saveState_spec (st : Ledger) (storage : Stored) (throws : Bool)
    (writeResult : Stored) :
    saveState st storage throws writeResult =
      if throws then (false, storage)
      else if writeResult = Stored.val (encodeLedger st) then
        (true, writeResult)
      else (false, writeResult) := by
  simp only [saveState, isEmptyObj_encodeLedger, Bool.false_eq_true,
    if_false]

lemma saveState_true_iff (st : Ledger) (storage : Stored) (throws : Bool)
    (writeResult : Stored) :
    (saveState st storage throws writeResult).1 = true ↔
      throws = false ∧ writeResult = Stored.val (encodeLedger st) := by
  rw [saveState_spec]
  cases throws
  · by_cases hw : writeResult = Stored.val (encodeLedger st) <;> simp [hw]
  · simp

/-- C2: saveState returns true exactly when the try block did not throw
(no storage-quota failure) and reading the fixed key back yields,
byte for byte, the serialized state that was written; on any error it
returns false, and being a total function it never propagates an
exception to its caller. -/
theorem c2_save_true_iff_verified (st : Ledger) (storage : Stored)
    (throws : Bool) (writeResult : Stored) :
    (saveState st storage throws writeResult).1 = true ↔
      (throws = false ∧
       (saveState st storage throws writeResult).2 =
         Stored.val (encodeLedger st) ∧
       writeResult = Stored.val (encodeLedger st)) := by
  rw [saveState_true_iff]
  constructor
  · rintro ⟨ht, hw⟩
    subst ht
    refine ⟨rfl, ?_, hw⟩
    rw [saveState_spec, if_neg (by simp), if_pos hw]
    exact hw
  · rintro ⟨ht, -, hw⟩
    exact ⟨ht, hw⟩

/-- C4: when the category (resp. source) input is missing or empty, or
the coerced amount is not greater than 0, onAddExpense
(resp. onAddIncome) aborts and the Ledger is returned completely
unchanged. -/
theorem c4_invalid_add_rejected (category source desc : Option String)
    (am1 am2 : Option ℚ) (id1 t1 id2 t2 : String) (st : Ledger)
    (h1 : strFalsy category = true ∨ toNumber am1 ≤ 0)
    (h2 : strFalsy source = true ∨ toNumber am2 ≤ 0) :
    onAddExpense category desc am1 id1 t1 st = st ∧
    onAddIncome source am2 id2 t2 st = st := by
  constructor
  · unfold onAddExpense
    rcases h1 with h | h
    · rw [if_pos h]
    · by_cases hc : strFalsy category
      · rw [if_pos hc]
      · rw [if_neg hc]
        simp only [if_pos h]
  · unfold onAddIncome
    rcases h2 with h | h
    · rw [if_pos h]
    · by_cases hc : strFalsy source
      · rw [if_pos hc]
      · rw [if_neg hc]
        simp only [if_pos h]

/-- C4 witness: an expense with amount -5 and an income with a missing
source are both rejected without any state change. -/
theorem c4_witness :
    (strFalsy (some "Mat") = true ∨ toNumber (some (-5 : ℚ)) ≤ 0) ∧
    (strFalsy (none : Option String) = true ∨ toNumber (some (7 : ℚ)) ≤ 0) ∧
    (onAddExpense (some "Mat") (some "x") (some (-5 : ℚ)) "id1" "t1"
        defaultLedger = defaultLedger ∧
     onAddIncome none (some (7 : ℚ)) "id2" "t2" defaultLedger =
        defaultLedger) :=
  ⟨by right; norm_num [toNumber, jsRound], by left; decide,
   c4_invalid_add_rejected (some "Mat") none (some "x") (some (-5 : ℚ))
     (some (7 : ℚ)) "id1" "t1" "id2" "t2" defaultLedger
     (by right; norm_num [toNumber, jsRound]) (by left; decide)⟩

/-- C5: a valid onAddExpense (resp. onAddIncome) call appends exactly
one record at the end of the collection, carrying the freshly
generated id, the current timestamp, and the input amount coerced and
rounded to 2 decimals by toNumber. -/
theorem c5_valid_add_appends (c s : String) (desc : Option String)
    (am1 am2 : Option ℚ) (id1 t1 id2 t2 : String) (st : Ledger)
    (hc : ¬ c = "") (h1 : 0 < toNumber am1)
    (hs : ¬ s = "") (h2 : 0 < toNumber am2) :
    ((onAddExpense (some c) desc am1 id1 t1 st).expenses =
        st.expenses ++
          [{ id := id1, category := c, amount := toNumber am1,
             desc := if strFalsy desc then "Ingen beskrivning"
                     else desc.getD "",
             date := t1 }] ∧
      (onAddExpense (some c) desc am1 id1 t1 st).expenses.length =
        st.expenses.length + 1) ∧
    ((onAddIncome (some s) am2 id2 t2 st).incomes =
        st.incomes ++
          [{ id := id2, source := s, amount := toNumber am2, date := t2 }] ∧
      (onAddIncome (some s) am2 id2 t2 st).incomes.length =
        st.incomes.length + 1) := by
  have hc' : strFalsy (some c) = false := by simp [strFalsy, hc]
  have hs' : strFalsy (some s) = false := by simp [strFalsy, hs]
  constructor
  · unfold onAddExpense
    rw [hc']
    simp [not_le.mpr h1]
  · unfold onAddIncome
    rw [hs']
    simp [not_le.mpr h2]

/-- C5 witness: adding the expense 120.555 kr for Mat appends one
record whose amount is 120.56, and adding the income 3000 kr from CSN
appends one record of amount 3000. -/
theorem c5_witness :
    (¬ "Mat" = "") ∧ (0 < toNumber (some (120555/1000 : ℚ))) ∧
    (¬ "CSN" = "") ∧ (0 < toNumber (some (3000 : ℚ))) ∧
    (((onAddExpense (some "Mat") (some "lunch") (some (120555/1000 : ℚ))
          "id1" "t1" defaultLedger).expenses =
        defaultLedger.expenses ++
          [{ id := "id1", category := "Mat",
             amount := toNumber (some (120555/1000 : ℚ)),
             desc := if strFalsy (some "lunch") then "Ingen beskrivning"
                     else (some "lunch").getD "",
             date := "t1" }] ∧
      (onAddExpense (some "Mat") (some "lunch") (some (120555/1000 : ℚ))
          "id1" "t1" defaultLedger).expenses.length =
        defaultLedger.expenses.length + 1) ∧
     ((onAddIncome (some "CSN") (some (3000 : ℚ)) "id2" "t2"
          defaultLedger).incomes =
        defaultLedger.incomes ++
          [{ id := "id2", source := "CSN",
             amount := toNumber (some (3000 : ℚ)), date := "t2" }] ∧
      (onAddIncome (some "CSN") (some (3000 : ℚ)) "id2" "t2"
          defaultLedger).incomes.length =
        defaultLedger.incomes.length + 1)) :=
  ⟨by decide, by norm_num [toNumber, jsRound], by decide,
   by norm_num [toNumber, jsRound],
   c5_valid_add_appends "Mat" "CSN" (some "lunch")
     (some (120555/1000 : ℚ)) (some (3000 : ℚ)) "id1" "t1" "id2" "t2"
     defaultLedger (by decide) (by norm_num [toNumber, jsRound])
     (by decide) (by norm_num [toNumber, jsRound])⟩

/-- C8: deleting an id that occurs in no expense (resp. no income)
record leaves the Ledger unchanged; the operation is total, so no
error can be raised. -/
theorem c8_delete_absent_id_noop (eid iid : String) (st : Ledger)
    (he : ∀ e ∈ st.expenses, e.id ≠ eid)
    (hi : ∀ i ∈ st.incomes, i.id ≠ iid) :
    deleteExpense eid st = st ∧ deleteIncome iid st = st := by
  constructor
  · have h : st.expenses.filter (fun e => e.id ≠ eid) = st.expenses :=
      List.filter_eq_self.mpr (by simpa using he)
    unfold deleteExpense
    rw [h]
  · have h : st.incomes.filter (fun i => i.id ≠ iid) = st.incomes :=
      List.filter_eq_self.mpr (by simpa using hi)
    unfold deleteIncome
    rw [h]

/-- C8 witness: deleting the ids "zzz" and "yyy", which occur nowhere
in a one-expense, one-income ledger, changes nothing. -/
theorem c8_witness :
    (∀ e ∈ (c8Ledger).expenses, e.id ≠ "zzz") ∧
    (∀ i ∈ (c8Ledger).incomes, i.id ≠ "yyy") ∧
    (deleteExpense "zzz" c8Ledger = c8Ledger ∧
     deleteIncome "yyy" c8Ledger = c8Ledger) :=
  ⟨by decide, by decide,
   c8_delete_absent_id_noop "zzz" "yyy" c8Ledger (by decide) (by decide)⟩

lemma toNumber_cent (n : ℤ) :
    toNumber (some ((n : ℚ) / 100)) = (n : ℚ) / 100 := by
  have h1 : ((n : ℚ) / 100) * 100 = (n : ℚ) := by
    field_simp
  have h2 : ⌊(n : ℚ) + 1/2⌋ = n := by
    rw [Int.floor_int_add]
    norm_num
  simp only [toNumber, jsRound, h1, h2]

lemma foldl_toNumber_sum (l : List Expense)
    (hl : ∀ e ∈ l, ∃ n : ℤ, e.amount = (n : ℚ) / 100) (acc : ℚ) :
    l.foldl (fun sum e => sum + toNumber (some e.amount)) acc =
      acc + (l.map Expense.amount).sum := by
  induction l generalizing acc with
  | nil => simp
  | cons e l ih =>
    obtain ⟨n, hn⟩ := hl e (by simp)
    have ht : toNumber (some e.amount) = e.amount := by
      rw [hn, toNumber_cent]
    simp only [List.foldl_cons, List.map_cons, List.sum_cons, ht]
    rw [ih (fun x hx => hl x (by simp [hx]))]
    ring

lemma sum_cent (l : List ℚ)
    (hl : ∀ x ∈ l, ∃ n : ℤ, x = (n : ℚ) / 100) :
    ∃ N : ℤ, l.sum = (N : ℚ) / 100 := by
  induction l with
  | nil => exact ⟨0, by simp⟩
  | cons x l ih =>
    obtain ⟨n, hn⟩ := hl x (by simp)
    obtain ⟨N, hN⟩ := ih (fun y hy => hl y (by simp [hy]))
    refine ⟨n + N, ?_⟩
    rw [List.sum_cons, hn, hN]
    push_cast
    ring

/-- C6 counterexample: the claim says rounding is half away from zero,
so that -0.005 coerces to -0.01; but toNumber uses the Math.round rule
(half toward positive infinity), and toNumber (-0.005) is 0, not
-0.01. -/
theorem c6_counterexample :
    toNumber (some (-(1/200) : ℚ)) = 0 ∧
    toNumber (some (-(1/200) : ℚ)) ≠ -(1/100) := by
  have h : toNumber (some (-(1/200) : ℚ)) = 0 := by
    norm_num [toNumber, jsRound]
  exact ⟨h, by rw [h]; norm_num⟩

/-- C6 (amended): amount coercion rounds to 2 decimal places with the
Math.round rule - round half toward positive infinity - on the value
scaled by 100: the result is n / 100 for the unique integer n with
q * 100 - 1/2 < n and n ≤ q * 100 + 1/2 (so a negative half such as
-0.005 rounds up to 0, not away from zero); non-numeric input coerces
to 0 rather than failing. -/
theorem c6_round_half_up (q : ℚ) :
    (∃ n : ℤ, toNumber (some q) = (n : ℚ) / 100 ∧
       q * 100 - 1/2 < (n : ℚ) ∧ (n : ℚ) ≤ q * 100 + 1/2) ∧
    toNumber none = 0 := by
  refine ⟨⟨jsRound (q * 100), rfl, ?_, ?_⟩, rfl⟩
  · have h := Int.lt_floor_add_one (q * 100 + 1/2)
    unfold jsRound
    push_cast at h ⊢
    linarith
  · have h := Int.floor_le (q * 100 + 1/2)
    unfold jsRound
    push_cast at h ⊢
    linarith

/-- C7: for a ledger whose stored amounts respect the two-decimal
invariant, spentByCategory equals the plain sum of the amounts of the
expenses in that category, and that value is a fixed point of the
2-decimal rounding (it never requires further rounding). -/
theorem c7_spent_by_category (c : String) (st : Ledger)
    (hinv : ∀ e ∈ st.expenses, ∃ n : ℤ, e.amount = (n : ℚ) / 100) :
    spentByCategory c st =
      ((st.expenses.filter fun e => e.category = c).map Expense.amount).sum ∧
    toNumber (some (spentByCategory c st)) = spentByCategory c st := by
  have hfil : ∀ e ∈ st.expenses.filter (fun e => e.category = c),
      ∃ n : ℤ, e.amount = (n : ℚ) / 100 := by
    intro e he
    exact hinv e (List.mem_of_mem_filter he)
  have hmain : spentByCategory c st =
      ((st.expenses.filter fun e => e.category = c).map Expense.amount).sum := by
    unfold spentByCategory
    rw [foldl_toNumber_sum _ hfil 0, zero_add]
  refine ⟨hmain, ?_⟩
  obtain ⟨N, hN⟩ := sum_cent _ (by
    intro x hx
    obtain ⟨e, he, rfl⟩ := List.mem_map.mp hx
    exact hfil e he)
  rw [hmain, hN, toNumber_cent]

/-- C7 witness: with expenses 120.56 kr (Mat) and 500 kr (Hyra), the
Mat spend is exactly 120.56 and rounding it again changes nothing. -/
theorem c7_witness :
    (∀ e ∈ c7Ledger.expenses, ∃ n : ℤ, e.amount = (n : ℚ) / 100) ∧
    (spentByCategory "Mat" c7Ledger =
      ((c7Ledger.expenses.filter fun e => e.category = "Mat").map
        Expense.amount).sum ∧
     toNumber (some (spentByCategory "Mat" c7Ledger)) =
      spentByCategory "Mat" c7Ledger) := by
  have hinv : ∀ e ∈ c7Ledger.expenses, ∃ n : ℤ, e.amount = (n : ℚ) / 100 := by
    intro e he
    simp only [c7Ledger, defaultLedger, List.mem_cons,
      List.not_mem_nil, or_false] at he
    rcases he with rfl | rfl
    · exact ⟨12056, by norm_num⟩
    · exact ⟨50000, by norm_num⟩
  exact ⟨hinv, c7_spent_by_category "Mat" c7Ledger hinv⟩

lemma jsOr_arrOrAbsent (v : Option JsVal) (d : JsVal)
    (h : isArrOrAbsent v = true) : jsOr v d = v.getD d := by
  cases v with
  | none => rfl
  | some x => cases x <;> simp_all [isArrOrAbsent, jsOr, truthy]

lemma jsOr_objOrAbsent (v : Option JsVal) (d : JsVal)
    (h : isObjOrAbsent v = true) : jsOr v d = v.getD d := by
  cases v with
  | none => rfl
  | some x => cases x <;> simp_all [isObjOrAbsent, jsOr, truthy]

/-- C3: a stored blob that parses to an object in which each of the
five top-level fields is either absent or of its proper structural
shape (an array, resp. an object for budgets) loads with found = true
into a structurally complete state: every present field is taken from
the blob verbatim and every absent field is its default (the default
category lists, empty budgets, empty expenses, empty incomes). -/
theorem c3_missing_fields_defaulted (fs : List (String × JsVal))
    (h1 : isArrOrAbsent (getField (.jobj fs) "expenseCategories") = true)
    (h2 : isArrOrAbsent (getField (.jobj fs) "incomeCategories") = true)
    (h3 : isObjOrAbsent (getField (.jobj fs) "budgets") = true)
    (h4 : isArrOrAbsent (getField (.jobj fs) "expenses") = true)
    (h5 : isArrOrAbsent (getField (.jobj fs) "incomes") = true) :
    (loadState (.val (.jobj fs))).1 = true ∧
    (loadState (.val (.jobj fs))).2 =
      { expenseCategories := (getField (.jobj fs) "expenseCategories").getD
          (.jarr (defaultExpenseCategories.map JsVal.jstr))
      , incomeCategories := (getField (.jobj fs) "incomeCategories").getD
          (.jarr (defaultIncomeCategories.map JsVal.jstr))
      , budgets := (getField (.jobj fs) "budgets").getD (.jobj [])
      , expenses := (getField (.jobj fs) "expenses").getD (.jarr [])
      , incomes := (getField (.jobj fs) "incomes").getD (.jarr []) } := by
  refine ⟨rfl, ?_⟩
  show mergeWithDefault (.jobj fs) = _
  unfold mergeWithDefault
  rw [jsOr_arrOrAbsent _ _ h1, jsOr_arrOrAbsent _ _ h2,
      jsOr_objOrAbsent _ _ h3, jsOr_arrOrAbsent _ _ h4,
      jsOr_arrOrAbsent _ _ h5]

/-- C3 witness: the blob holding only an (empty) expenses array loads
with found = true, keeps that array, and defaults the other four
fields. -/
theorem c3_witness :
    isArrOrAbsent (getField (.jobj c3Blob) "expenseCategories") = true ∧
    isArrOrAbsent (getField (.jobj c3Blob) "incomeCategories") = true ∧
    isObjOrAbsent (getField (.jobj c3Blob) "budgets") = true ∧
    isArrOrAbsent (getField (.jobj c3Blob) "expenses") = true ∧
    isArrOrAbsent (getField (.jobj c3Blob) "incomes") = true ∧
    ((loadState (.val (.jobj c3Blob))).1 = true ∧
     (loadState (.val (.jobj c3Blob))).2 =
      { expenseCategories := (getField (.jobj c3Blob) "expenseCategories").getD
          (.jarr (defaultExpenseCategories.map JsVal.jstr))
      , incomeCategories := (getField (.jobj c3Blob) "incomeCategories").getD
          (.jarr (defaultIncomeCategories.map JsVal.jstr))
      , budgets := (getField (.jobj c3Blob) "budgets").getD (.jobj [])
      , expenses := (getField (.jobj c3Blob) "expenses").getD (.jarr [])
      , incomes := (getField (.jobj c3Blob) "incomes").getD (.jarr []) }) :=
  ⟨rfl, rfl, rfl, rfl, rfl,
   c3_missing_fields_defaulted c3Blob rfl rfl rfl rfl rfl⟩

lemma truthy_of_falsy_val (v : JsVal)
    (h : v = .jnull ∨ v = .jbool false ∨ v = .jnum 0 ∨ v = .jstr "") :
    truthy v = false := by
  rcases h with rfl | rfl | rfl | rfl <;> simp [truthy]

lemma jsOr_of_truthy_false (v : JsVal) (d : JsVal)
    (h : truthy v = false) : jsOr (some v) d = d := by
  simp [jsOr, h]

/-- C10: load replaces a top-level field with its default whenever the
stored value is falsy (null, false, 0 or the empty string), not only
when it is absent; a present empty array, being truthy, is kept
as-is. -/
theorem c10_falsy_fields_defaulted (fs gs : List (String × JsVal))
    (v1 v2 v3 v4 v5 : JsVal)
    (hv1 : v1 = .jnull ∨ v1 = .jbool false ∨ v1 = .jnum 0 ∨ v1 = .jstr "")
    (hv2 : v2 = .jnull ∨ v2 = .jbool false ∨ v2 = .jnum 0 ∨ v2 = .jstr "")
    (hv3 : v3 = .jnull ∨ v3 = .jbool false ∨ v3 = .jnum 0 ∨ v3 = .jstr "")
    (hv4 : v4 = .jnull ∨ v4 = .jbool false ∨ v4 = .jnum 0 ∨ v4 = .jstr "")
    (hv5 : v5 = .jnull ∨ v5 = .jbool false ∨ v5 = .jnum 0 ∨ v5 = .jstr "")
    (hf1 : getField (.jobj fs) "expenseCategories" = some v1)
    (hf2 : getField (.jobj fs) "incomeCategories" = some v2)
    (hf3 : getField (.jobj fs) "budgets" = some v3)
    (hf4 : getField (.jobj fs) "expenses" = some v4)
    (hf5 : getField (.jobj fs) "incomes" = some v5)
    (hg : getField (.jobj gs) "expenses" = some (.jarr [])) :
    (loadState (.val (.jobj fs))).2 =
      { expenseCategories := .jarr (defaultExpenseCategories.map JsVal.jstr)
      , incomeCategories := .jarr (defaultIncomeCategories.map JsVal.jstr)
      , budgets := .jobj []
      , expenses := .jarr []
      , incomes := .jarr [] } ∧
    (loadState (.val (.jobj gs))).2.expenses = .jarr [] := by
  constructor
  · show mergeWithDefault (.jobj fs) = _
    unfold mergeWithDefault
    rw [hf1, hf2, hf3, hf4, hf5,
        jsOr_of_truthy_false _ _ (truthy_of_falsy_val _ hv1),
        jsOr_of_truthy_false _ _ (truthy_of_falsy_val _ hv2),
        jsOr_of_truthy_false _ _ (truthy_of_falsy_val _ hv3),
        jsOr_of_truthy_false _ _ (truthy_of_falsy_val _ hv4),
        jsOr_of_truthy_false _ _ (truthy_of_falsy_val _ hv5)]
  · show (mergeWithDefault (.jobj gs)).expenses = _
    unfold mergeWithDefault
    rw [hg]
    rfl

/-- C10 witness: a blob whose five fields hold null, false, 0, the
empty string and null respectively loads as the all-defaults state,
while a blob with an explicitly empty expenses array keeps that
array. -/
theorem c10_witness :
    (getField (.jobj [("expenseCategories", JsVal.jnull),
        ("incomeCategories", JsVal.jbool false),
        ("budgets", JsVal.jnum 0), ("expenses", JsVal.jstr ""),
        ("incomes", JsVal.jnull)]) "expenseCategories" = some JsVal.jnull) ∧
    ((loadState (.val (.jobj [("expenseCategories", JsVal.jnull),
        ("incomeCategories", JsVal.jbool false),
        ("budgets", JsVal.jnum 0), ("expenses", JsVal.jstr ""),
        ("incomes", JsVal.jnull)]))).2 =
      { expenseCategories := .jarr (defaultExpenseCategories.map JsVal.jstr)
      , incomeCategories := .jarr (defaultIncomeCategories.map JsVal.jstr)
      , budgets := .jobj []
      , expenses := .jarr []
      , incomes := .jarr [] } ∧
     (loadState (.val (.jobj c10Blob))).2.expenses = .jarr []) :=
  ⟨rfl,
   c10_falsy_fields_defaulted
     [("expenseCategories", JsVal.jnull), ("incomeCategories", JsVal.jbool false),
      ("budgets", JsVal.jnum 0), ("expenses", JsVal.jstr ""),
      ("incomes", JsVal.jnull)]
     c10Blob
     JsVal.jnull (JsVal.jbool false) (JsVal.jnum 0) (JsVal.jstr "") JsVal.jnull
     (Or.inl rfl) (Or.inr (Or.inl rfl)) (Or.inr (Or.inr (Or.inl rfl)))
     (Or.inr (Or.inr (Or.inr rfl))) (Or.inl rfl)
     rfl rfl rfl rfl rfl rfl⟩

lemma decodeExpense_encode (e : Expense) :
    decodeExpense (encodeExpense e) = some e := rfl

lemma decodeIncome_encode (i : Income) :
    decodeIncome (encodeIncome i) = some i := rfl

lemma decodeList_expenses (xs : List Expense) :
    decodeList decodeExpense (xs.map encodeExpense) = some xs := by
  induction xs with
  | nil => rfl
  | cons e l ih => simp [decodeList, decodeExpense_encode, ih]

lemma decodeList_incomes (xs : List Income) :
    decodeList decodeIncome (xs.map encodeIncome) = some xs := by
  induction xs with
  | nil => rfl
  | cons i l ih => simp [decodeList, decodeIncome_encode, ih]

lemma decodeList_strings (l : List String) :
    decodeList decodeStr (l.map JsVal.jstr) = some l := by
  induction l with
  | nil => rfl
  | cons s l ih => simp [decodeList, decodeStr, ih]

lemma decodeBudgetList_map (bs : List (String × ℚ)) :
    decodeBudgetList (bs.map fun p => (p.1, JsVal.jnum p.2)) = some bs := by
  induction bs with
  | nil => rfl
  | cons p bs ih => simp [decodeBudgetList, ih]

lemma loadState_encode (st : Ledger) :
    loadState (.val (encodeLedger st)) = (true, rawOfLedger st) := rfl

lemma decodeRaw_raw (st : Ledger) : decodeRaw (rawOfLedger st) = some st := by
  simp [decodeRaw, rawOfLedger, decodeStringList, decodeList_strings,
    decodeBudgets, decodeBudgetList_map, decodeList_expenses,
    decodeList_incomes]

/-- C1: whenever saveState reports success, loading from the resulting
slot yields found = true and a state that decodes back to a Ledger
structurally equal to the one that was saved: all five top-level
fields round-trip losslessly. -/
theorem c1_save_load_round_trip (st : Ledger) (storage : Stored)
    (throws : Bool) (writeResult : Stored)
    (hsave : (saveState st storage throws writeResult).1 = true) :
    (loadState (saveState st storage throws writeResult).2).1 = true ∧
    decodeRaw (loadState (saveState st storage throws writeResult).2).2 =
      some st := by
  obtain ⟨ht, hw⟩ :=
    (saveState_true_iff st storage throws writeResult).mp hsave
  subst ht
  subst hw
  have h2 : (saveState st storage false
      (Stored.val (encodeLedger st))).2 = Stored.val (encodeLedger st) := by
    rw [saveState_spec]
    simp
  rw [h2, loadState_encode]
  exact ⟨rfl, decodeRaw_raw st⟩

/-- C1 witness: the one-of-each ledger c1Ledger, saved into an empty
slot with no quota failure, loads back to exactly c1Ledger. -/
theorem c1_witness :
    (saveState c1Ledger Stored.absent false
        (Stored.val (encodeLedger c1Ledger))).1 = true ∧
    ((loadState (saveState c1Ledger Stored.absent false
        (Stored.val (encodeLedger c1Ledger))).2).1 = true ∧
     decodeRaw (loadState (saveState c1Ledger Stored.absent false
        (Stored.val (encodeLedger c1Ledger))).2).2 = some c1Ledger) :=
  have hs : (saveState c1Ledger Stored.absent false
      (Stored.val (encodeLedger c1Ledger))).1 = true :=
    (saveState_true_iff c1Ledger Stored.absent false
      (Stored.val (encodeLedger c1Ledger))).mpr ⟨rfl, rfl⟩
  ⟨hs, c1_save_load_round_trip c1Ledger Stored.absent false
    (Stored.val (encodeLedger c1Ledger)) hs⟩

lemma onAddExpenseApp_success (category desc : Option String)
    (amount : Option ℚ) (newId now : String) (a : App)
    (hc : strFalsy category = false) (ha : ¬ toNumber amount ≤ 0) :
    onAddExpenseApp category desc amount newId now false
      (Stored.val (encodeLedger
        (onAddExpense category desc amount newId now a.ledger))) a =
      { ledger := onAddExpense category desc amount newId now a.ledger
      , storage := Stored.val (encodeLedger
          (onAddExpense category desc amount newId now a.ledger))
      , unsaved := true
      , timerOn := true } := by
  unfold onAddExpenseApp
  rw [hc]
  simp only [Bool.false_eq_true, if_false]
  rw [if_neg ha]
  unfold saveStateApp
  rw [saveState_spec]
  simp [markUnsavedChanges, markSavedChanges]

lemma onAddExpenseApp_throwing (category desc : Option String)
    (amount : Option ℚ) (newId now : String) (a : App)
    (hc : strFalsy category = false) (ha : ¬ toNumber amount ≤ 0) :
    onAddExpenseApp category desc amount newId now true Stored.absent a =
      { ledger := onAddExpense category desc amount newId now a.ledger
      , storage := a.storage
      , unsaved := a.unsaved
      , timerOn := a.timerOn } := by
  unfold onAddExpenseApp
  rw [hc]
  simp only [Bool.false_eq_true, if_false]
  rw [if_neg ha]
  unfold saveStateApp
  rw [saveState_spec]
  simp

/-- C9: the code contradicts the claimed state machine. Starting from
the initial Saved state, a valid onAddExpense whose auto-save verifies
successfully (first conjunct group: the slot really holds the new
serialized ledger) terminates with hasUnsavedChanges = true and the
reminder timer armed - Dirty, where the claim requires Saved - because
the handler calls markUnsavedChanges after, and only after, a
successful saveState. Conversely (last conjunct), the same mutation
with a throwing save leaves the flag false - still Saved, although the
mutation is unsaved. -/
theorem c9_dirty_after_successful_autosave :
    ((onAddExpenseApp (some "Mat") (some "lunch") (some (10 : ℚ)) "id1" "t1"
        false (Stored.val (encodeLedger (onAddExpense (some "Mat")
          (some "lunch") (some (10 : ℚ)) "id1" "t1" c9Start.ledger)))
        c9Start).storage =
      Stored.val (encodeLedger (onAddExpenseApp (some "Mat") (some "lunch")
        (some (10 : ℚ)) "id1" "t1" false
        (Stored.val (encodeLedger (onAddExpense (some "Mat") (some "lunch")
          (some (10 : ℚ)) "id1" "t1" c9Start.ledger))) c9Start).ledger)) ∧
    (onAddExpenseApp (some "Mat") (some "lunch") (some (10 : ℚ)) "id1" "t1"
        false (Stored.val (encodeLedger (onAddExpense (some "Mat")
          (some "lunch") (some (10 : ℚ)) "id1" "t1" c9Start.ledger)))
        c9Start).unsaved = true ∧
    (onAddExpenseApp (some "Mat") (some "lunch") (some (10 : ℚ)) "id1" "t1"
        false (Stored.val (encodeLedger (onAddExpense (some "Mat")
          (some "lunch") (some (10 : ℚ)) "id1" "t1" c9Start.ledger)))
        c9Start).timerOn = true ∧
    (onAddExpenseApp (some "Mat") (some "lunch") (some (10 : ℚ)) "id1" "t1"
        true Stored.absent c9Start).unsaved = false := by
  have hc : strFalsy (some "Mat") = false := by decide
  have ha : ¬ toNumber (some (10 : ℚ)) ≤ 0 := by
    norm_num [toNumber, jsRound]
  rw [onAddExpenseApp_success (some "Mat") (some "lunch") (some (10 : ℚ))
        "id1" "t1" c9Start hc ha,
      onAddExpenseApp_throwing (some "Mat") (some "lunch") (some (10 : ℚ))
        "id1" "t1" c9Start hc ha]
  exact ⟨rfl, rfl, rfl, rfl⟩

end BashiBudget
